import Mathlib

/-!
Verification of the real-estate price-prediction dashboard
(`estate_backend.py`) against its design specification.

The script is embedded shallowly:

* machine integers read from the widgets become `Int`, the one float field
  (`Distance_to_Center`) and all prices become `ℚ`;
* the sidebar widgets become clamp/default functions over the declared
  `min_value`/`max_value`/`value` parameters of each control;
* the loaded model becomes a function `FeatureRecord → Except String ℚ`
  (the `predict` call may raise);
* one top-to-bottom execution of the script becomes the pure function
  `runScript`, whose `RenderOutput` records everything the script renders
  in that cycle; `st.stop()` is modelled by returning early with every
  later element absent;
* the single random draw `np.random.uniform(0.9, 1.1)` is passed in as an
  explicit per-cycle parameter `U`.
-/

/-- The ten-field Feature Record, with the column names of the
`input_data` DataFrame built on lines 44-55 of `estate_backend.py`. -/
structure FeatureRecord where
  Square_Feet : Int
  Num_Bedrooms : Int
  Num_Bathrooms : Int
  Num_Floors : Int
  Year_Built : Int
  Has_Garden : Int
  Has_Pool : Int
  Garage_Size : Int
  Location_Score : Int
  Distance_to_Center : ℚ
deriving DecidableEq

/-! ### The insight strings (lines 126-149 of the source) -/

/-- Line 127: true branch of `Location_Score < 5`. -/
def locationBelowMsg : String :=
  "📍 **Location Score is below average** — improving neighborhood appeal increases property value."

/-- Line 129: false branch of `Location_Score < 5`. -/
def locationGoodMsg : String :=
  "📍 **Good Location Score** — this strongly boosts the property's market value."

/-- Line 132: true branch of `Has_Pool == 1`. -/
def poolYesMsg : String :=
  "🏊 **Pool detected** — adds luxury appeal and may increase value depending on region."

/-- Line 134: false branch of `Has_Pool == 1`. -/
def poolNoMsg : String :=
  "🏊 Adding a small pool could improve resale value in high-income locations."

/-- Line 137: true branch of `Year_Built < 2000`. -/
def ageOldMsg : String :=
  "🏚 **Older building** — renovations or upgrades could significantly increase the price."

/-- Line 139: false branch of `Year_Built < 2000`. -/
def ageModernMsg : String :=
  "🏠 **Modern building year** — great for valuation and reduces maintenance concerns."

/-- Line 142: true branch of `Distance_to_Center > 15`. -/
def distanceFarMsg : String :=
  "🚗 **Far from city center** — location may affect buyer demand. Consider pricing strategy."

/-- Line 144: false branch of `Distance_to_Center > 15`. -/
def distanceNearMsg : String :=
  "🚗 **Good proximity to the city** — attractive for buyers and raises value."

/-- Line 147: true branch of `Square_Feet < 800`. -/
def sizeSmallMsg : String :=
  "📏 Property is relatively small — expanding space could increase market worth."

/-- Line 149: false branch of `Square_Feet < 800`. -/
def sizeGoodMsg : String :=
  "📏 Good overall space — larger area increases valuation strength."

/-! ### The five insight rules, one per `if`/`else` of lines 126-149 -/

/-- Lines 126-129: `if Location_Score < 5`. -/
def locationRule (r : FeatureRecord) : String :=
  if r.Location_Score < 5 then locationBelowMsg else locationGoodMsg

/-- Lines 131-134: `if Has_Pool == 1`. -/
def poolRule (r : FeatureRecord) : String :=
  if r.Has_Pool == 1 then poolYesMsg else poolNoMsg

/-- Lines 136-139: `if Year_Built < 2000`. -/
def ageRule (r : FeatureRecord) : String :=
  if r.Year_Built < 2000 then ageOldMsg else ageModernMsg

/-- Lines 141-144: `if Distance_to_Center > 15`. -/
def distanceRule (r : FeatureRecord) : String :=
  if r.Distance_to_Center > 15 then distanceFarMsg else distanceNearMsg

/-- Lines 146-149: `if Square_Feet < 800`. -/
def sizeRule (r : FeatureRecord) : String :=
  if r.Square_Feet < 800 then sizeSmallMsg else sizeGoodMsg

/-- Lines 124-149: `insights = []` followed by the five sequential
`insights.append(...)` conditionals, in source order. -/
def insights (r : FeatureRecord) : List String :=
  (((((([] : List String)
    ++ [if r.Location_Score < 5 then locationBelowMsg else locationGoodMsg])
    ++ [if r.Has_Pool == 1 then poolYesMsg else poolNoMsg])
    ++ [if r.Year_Built < 2000 then ageOldMsg else ageModernMsg])
    ++ [if r.Distance_to_Center > 15 then distanceFarMsg else distanceNearMsg])
    ++ [if r.Square_Feet < 800 then sizeSmallMsg else sizeGoodMsg])

/-! ### Input collection (lines 32-41)

Each sidebar control carries a declared `min_value`, `max_value` and
initial `value`; the control only ever yields a value inside that range,
and yields the initial value when the user has not touched it.  A raw
interaction is therefore `none` (untouched) or `some v` (the user moved
the control toward `v`, which the control keeps inside its bounds). -/

/-- `st.sidebar.number_input(label, min_value, max_value, value)` over
integers: yields the default when untouched, otherwise the attempted
value kept within the declared bounds. -/
def numberInputInt (lo hi dflt : Int) : Option Int → Int
  | none => dflt
  | some v => max lo (min hi v)

/-- `st.sidebar.number_input(label, min_value, max_value, value)` over
floats (`Distance_to_Center`), same contract over `ℚ`. -/
def numberInputRat (lo hi dflt : ℚ) : Option ℚ → ℚ
  | none => dflt
  | some v => max lo (min hi v)

/-- `st.sidebar.slider(label, 1, 10, 7)`: identical clamp/default
contract to an integer `number_input`. -/
def sliderInt (lo hi dflt : Int) : Option Int → Int
  | none => dflt
  | some v => max lo (min hi v)

/-- `st.sidebar.selectbox(label, [0, 1])`: the value is always one of the
two listed options; the default is the first option, `0`. -/
def selectbox01 : Option Bool → Int
  | none => 0
  | some b => if b then 1 else 0

/-- One raw interaction per widget of lines 32-41; `none` means the user
left the control at its initial value. -/
structure RawInputs where
  squareFeet : Option Int
  numBedrooms : Option Int
  numBathrooms : Option Int
  numFloors : Option Int
  yearBuilt : Option Int
  hasGarden : Option Bool
  hasPool : Option Bool
  garageSize : Option Int
  locationScore : Option Int
  distanceToCenter : Option ℚ

/-- Lines 32-41 followed by lines 44-55: read the ten widgets with their
declared bounds and defaults and assemble the `input_data` record. -/
def collectInputs (raw : RawInputs) : FeatureRecord where
  Square_Feet := numberInputInt 200 20000 1500 raw.squareFeet
  Num_Bedrooms := numberInputInt 0 20 3 raw.numBedrooms
  Num_Bathrooms := numberInputInt 0 20 2 raw.numBathrooms
  Num_Floors := numberInputInt 1 10 1 raw.numFloors
  Year_Built := numberInputInt 1800 2025 2010 raw.yearBuilt
  Has_Garden := selectbox01 raw.hasGarden
  Has_Pool := selectbox01 raw.hasPool
  Garage_Size := numberInputInt 0 10 1 raw.garageSize
  Location_Score := sliderInt 1 10 7 raw.locationScore
  Distance_to_Center := numberInputRat 0 100 5 raw.distanceToCenter

/-- All ten widgets untouched. -/
def defaultRaw : RawInputs where
  squareFeet := none
  numBedrooms := none
  numBathrooms := none
  numFloors := none
  yearBuilt := none
  hasGarden := none
  hasPool := none
  garageSize := none
  locationScore := none
  distanceToCenter := none

/-- The Feature Record of declared defaults (the `value=` and initial
selections of lines 32-41). -/
def defaultRecord : FeatureRecord where
  Square_Feet := 1500
  Num_Bedrooms := 3
  Num_Bathrooms := 2
  Num_Floors := 1
  Year_Built := 2010
  Has_Garden := 0
  Has_Pool := 0
  Garage_Size := 1
  Location_Score := 7
  Distance_to_Center := 5

/-- The declared field ranges of the Feature Record (the widget bounds of
lines 32-41). -/
def InRange (r : FeatureRecord) : Prop :=
  (200 ≤ r.Square_Feet ∧ r.Square_Feet ≤ 20000) ∧
  (0 ≤ r.Num_Bedrooms ∧ r.Num_Bedrooms ≤ 20) ∧
  (0 ≤ r.Num_Bathrooms ∧ r.Num_Bathrooms ≤ 20) ∧
  (1 ≤ r.Num_Floors ∧ r.Num_Floors ≤ 10) ∧
  (1800 ≤ r.Year_Built ∧ r.Year_Built ≤ 2025) ∧
  (r.Has_Garden = 0 ∨ r.Has_Garden = 1) ∧
  (r.Has_Pool = 0 ∨ r.Has_Pool = 1) ∧
  (0 ≤ r.Garage_Size ∧ r.Garage_Size ≤ 10) ∧
  (1 ≤ r.Location_Score ∧ r.Location_Score ≤ 10) ∧
  (0 ≤ r.Distance_to_Center ∧ r.Distance_to_Center ≤ 100)

instance (r : FeatureRecord) : Decidable (InRange r) := by
  unfold InRange; infer_instance

/-! ### Chart construction (lines 102-117) -/

/-- The bar chart of lines 103-115: the category labels, the bar values,
the two fixed bar colors, and the y-axis limits set by
`ax.set_ylim(0, max(values) * 1.2)`. -/
structure Chart where
  labels : List String
  values : List ℚ
  colors : List String
  ylimLo : ℚ
  ylimHi : ℚ
deriving DecidableEq

/-- Lines 103-115 applied to `prediction` and `avg_price`. -/
def buildChart (prediction avg_price : ℚ) : Chart where
  labels := ["Predicted Price", "Benchmark Price"]
  values := [prediction, avg_price]
  colors := ["#4CAF50", "#2196F3"]
  ylimLo := 0
  ylimHi := max prediction avg_price * (12 / 10)

/-! ### One execution of the script (one render cycle) -/

/-- The loaded model: `model.predict(input_data)[0]`, which may raise. -/
def Model : Type := FeatureRecord → Except String ℚ

/-- Line 81: the fatal banner shown when `joblib.load` raised `msg`. -/
def loadErrorBanner (msg : String) : String :=
  "Model failed to load. Put 'linear_regression_real_estate.joblib' in this folder.\nError: " ++ msg

/-- Line 90: the banner shown when `model.predict` raised `msg`. -/
def predictionErrorBanner (msg : String) : String :=
  "Prediction failed: " ++ msg

/-- Line 169: the idle prompt shown when the button was not pressed. -/
def idleWarningMsg : String :=
  "👈 Enter details on the left panel and click **Predict Price**."

/-- Everything one top-to-bottom run of the script renders.
`predictCalled` instruments whether line 88 (`model.predict`) was
reached; `footerShown` records whether execution reached the footer of
lines 174-182 (it does not when `st.stop()` fires on line 91). -/
structure RenderOutput where
  errorBanner : Option String
  predictCalled : Bool
  predictionShown : Option ℚ
  chart : Option Chart
  insightsShown : Option (List String)
  finalMessageShown : Bool
  idleWarningShown : Bool
  footerShown : Bool

/-- One top-to-bottom execution of `estate_backend.py`:

* lines 32-55 collect the inputs into `input_data`;
* line 80: if the model failed to load, show the fatal banner (the
  predict button of line 84 is never rendered, so the model is never
  called) and fall through to the footer;
* line 84: otherwise, if the predict button was not pressed this cycle,
  show the idle warning and fall through to the footer;
* lines 87-91: call `model.predict`; on failure show the error banner and
  `st.stop()` — nothing after line 91 renders, the footer included;
* lines 93-166: on success show the price, build the chart from the
  fresh draw `U` (line 102: `avg_price = prediction * U`), derive the
  insights from `input_data`, show the final message, then the footer. -/
def runScript (loadResult : Except String Model) (raw : RawInputs)
    (buttonPressed : Bool) (U : ℚ) : RenderOutput :=
  let input_data := collectInputs raw
  match loadResult with
  | .error load_error =>
      { errorBanner := some (loadErrorBanner load_error)
        predictCalled := false
        predictionShown := none
        chart := none
        insightsShown := none
        finalMessageShown := false
        idleWarningShown := false
        footerShown := true }
  | .ok model =>
      if buttonPressed then
        match model input_data with
        | .error e =>
            { errorBanner := some (predictionErrorBanner e)
              predictCalled := true
              predictionShown := none
              chart := none
              insightsShown := none
              finalMessageShown := false
              idleWarningShown := false
              footerShown := false }
        | .ok prediction =>
            let avg_price := prediction * U
            { errorBanner := none
              predictCalled := true
              predictionShown := some prediction
              chart := some (buildChart prediction avg_price)
              insightsShown := some (insights input_data)
              finalMessageShown := true
              idleWarningShown := false
              footerShown := true }
      else
        { errorBanner := none
          predictCalled := false
          predictionShown := none
          chart := none
          insightsShown := none
          finalMessageShown := false
          idleWarningShown := true
          footerShown := true }

/-- One render cycle's external stimuli: the widget interactions, whether
the predict button was pressed, and the cycle's uniform draw. -/
structure CycleInput where
  raw : RawInputs
  buttonPressed : Bool
  U : ℚ

/-- Modelled from the spec: the host UI framework that drives the script
is not part of the repository; per the spec, the model artifact is
"loaded once at process start", the load result is held "for the life of
the process" and "model loading is not retried", and the framework then
reruns the script once per render cycle against that fixed load result. -/
def processRun (loadResult : Except String Model) (cycles : List CycleInput) :
    List RenderOutput :=
  cycles.map fun c => runScript loadResult c.raw c.buttonPressed c.U

/-- A model whose predict call always returns `p` (a test double). -/
def constModel (p : ℚ) : Model := fun _ => .ok p

/-- A model whose predict call always raises `e` (a test double). -/
def failModel (e : String) : Model := fun _ => .error e

/-! ### The claims -/

/-- C1: For every Feature Record whose ten fields lie within the declared
ranges, the insight-derivation step of lines 124-149 emits exactly five
insights, one per rule, in the fixed order Location, Pool, Age, Distance,
Size, each rule contributing exactly one of its two themes — never zero
and never more than one insight per rule. -/
theorem c1_exactly_five_insights (r : FeatureRecord) (h : InRange r) :
    insights r =
      [locationRule r, poolRule r, ageRule r, distanceRule r, sizeRule r] ∧
    (insights r).length = 5 ∧
    (locationRule r = locationBelowMsg ∨ locationRule r = locationGoodMsg) ∧
    (poolRule r = poolYesMsg ∨ poolRule r = poolNoMsg) ∧
    (ageRule r = ageOldMsg ∨ ageRule r = ageModernMsg) ∧
    (distanceRule r = distanceFarMsg ∨ distanceRule r = distanceNearMsg) ∧
    (sizeRule r = sizeSmallMsg ∨ sizeRule r = sizeGoodMsg) := by
  refine ⟨rfl, rfl, ?_, ?_, ?_, ?_, ?_⟩ <;>
    first
      | (unfold locationRule; split <;> simp)
      | (unfold poolRule; split <;> simp)
      | (unfold ageRule; split <;> simp)
      | (unfold distanceRule; split <;> simp)
      | (unfold sizeRule; split <;> simp)

/-- Witness for C1 at the default Feature Record. -/
theorem c1_exactly_five_insights_witness :
    (insights defaultRecord).length = 5 :=
  (c1_exactly_five_insights defaultRecord (by decide)).2.1

/-- C2: each rule fires at exactly the stated strict-inequality boundary:
`Location_Score = 5` gives the good-location (false-branch) theme while
`4` gives the below-average theme; `Year_Built = 2000` gives the modern
theme; `Distance_to_Center = 15` gives the good-proximity theme;
`Square_Feet = 800` gives the good-space theme; and the pool rule gives
the luxury theme exactly when `Has_Pool = 1`. -/
theorem c2_boundary_thresholds :
    locationRule { defaultRecord with Location_Score := 5 } = locationGoodMsg ∧
    locationRule { defaultRecord with Location_Score := 4 } = locationBelowMsg ∧
    ageRule { defaultRecord with Year_Built := 2000 } = ageModernMsg ∧
    ageRule { defaultRecord with Year_Built := 1999 } = ageOldMsg ∧
    distanceRule { defaultRecord with Distance_to_Center := 15 } = distanceNearMsg ∧
    distanceRule { defaultRecord with Distance_to_Center := 16 } = distanceFarMsg ∧
    sizeRule { defaultRecord with Square_Feet := 800 } = sizeGoodMsg ∧
    sizeRule { defaultRecord with Square_Feet := 799 } = sizeSmallMsg ∧
    poolRule { defaultRecord with Has_Pool := 1 } = poolYesMsg ∧
    poolRule { defaultRecord with Has_Pool := 0 } = poolNoMsg := by
  decide

/-- C3: if the model artifact failed to load (with message `msg`), then in
every render cycle of the process run the dashboard shows the fatal
banner of line 81 (the fixed text followed by `msg`), the predict call of
line 88 is never reached, and no prediction, chart or insights are ever
rendered; the load result, fixed at process start, is never retried. -/
theorem c3_load_failure_permanent (msg : String) (cycles : List CycleInput)
    (o : RenderOutput) (ho : o ∈ processRun (.error msg) cycles) :
    o.errorBanner = some (loadErrorBanner msg) ∧
    o.predictCalled = false ∧
    o.predictionShown = none ∧
    o.chart = none ∧
    o.insightsShown = none := by
  rcases List.mem_map.1 ho with ⟨c, -, rfl⟩
  exact ⟨rfl, rfl, rfl, rfl, rfl⟩

/-- Witness for C3: one process run with a failed load and a pressed
predict button never calls predict. -/
theorem c3_load_failure_permanent_witness :
    (runScript (.error "file not found") defaultRaw true 1).predictCalled
      = false :=
  (c3_load_failure_permanent "file not found"
    [{ raw := defaultRaw, buttonPressed := true, U := 1 }]
    (runScript (.error "file not found") defaultRaw true 1)
    (by simp [processRun])).2.1

/-- A model used only to exercise a failing predict call followed by a
succeeding one: it raises exactly on records with a pool. -/
def mixedModel : Model := fun r =>
  if r.Has_Pool == 1 then .error "boom" else .ok 300000

/-- The default widgets with the pool selectbox switched to 1. -/
def pooledRaw : RawInputs := { defaultRaw with hasPool := some true }

/-- C4: with a loaded model, a cycle whose predict call raises `e` shows
the failure banner of line 90 and renders neither a price nor a chart nor
insights; and predict is not disabled: any cycle of the same model whose
predict call succeeds renders its prediction normally. -/
theorem c4_prediction_failure_not_sticky (m : Model) (raw raw2 : RawInputs)
    (U U2 : ℚ) (e : String) (p : ℚ)
    (hfail : m (collectInputs raw) = .error e)
    (hok : m (collectInputs raw2) = .ok p) :
    (runScript (.ok m) raw true U).errorBanner
      = some (predictionErrorBanner e) ∧
    (runScript (.ok m) raw true U).predictionShown = none ∧
    (runScript (.ok m) raw true U).chart = none ∧
    (runScript (.ok m) raw true U).insightsShown = none ∧
    (runScript (.ok m) raw2 true U2).predictCalled = true ∧
    (runScript (.ok m) raw2 true U2).predictionShown = some p := by
  simp only [runScript, hfail, hok]
  exact ⟨rfl, rfl, rfl, rfl, rfl, rfl⟩

/-- Witness for C4: `mixedModel` fails on the pooled record and then
succeeds on the default record in the next cycle. -/
theorem c4_prediction_failure_not_sticky_witness :
    (runScript (.ok mixedModel) defaultRaw true 1).predictionShown
      = some 300000 :=
  (c4_prediction_failure_not_sticky mixedModel pooledRaw defaultRaw 1 1
    "boom" 300000 rfl rfl).2.2.2.2.2

/-- C5: on every successful predict cycle the chart of line 102-104 pairs
the prediction with `avg_price = prediction * U`, `U` being that cycle's
uniform draw from [0.9, 1.1]; in particular a prediction of 500000 always
yields a benchmark within [450000, 550000]. -/
theorem c5_benchmark_within_ten_percent (m : Model) (raw : RawInputs)
    (U p : ℚ) (hm : m (collectInputs raw) = .ok p) :
    (runScript (.ok m) raw true U).chart = some (buildChart p (p * U)) ∧
    (9 / 10 ≤ U → U ≤ 11 / 10 → p = 500000 →
      450000 ≤ p * U ∧ p * U ≤ 550000) := by
  constructor
  · simp only [runScript, hm]
    rfl
  · rintro h1 h2 rfl
    constructor <;> nlinarith

/-- Witness for C5: a mocked prediction of 500000 with the draw `U = 1`
lands inside the declared benchmark interval. -/
theorem c5_benchmark_within_ten_percent_witness :
    450000 ≤ (500000 : ℚ) * 1 ∧ (500000 : ℚ) * 1 ≤ 550000 :=
  (c5_benchmark_within_ten_percent (constModel 500000) defaultRaw 1 500000
    rfl).2 (by norm_num) (by norm_num) rfl

/-- C6: on every successful predict cycle the rendered chart has exactly
the two bars "Predicted Price" (value `p`, color `#4CAF50`) and
"Benchmark Price" (value `p * U`, color `#2196F3`), with y-axis from 0 to
`max(values) * 1.2` as set on line 115. -/
theorem c6_chart_structure (m : Model) (raw : RawInputs) (U p : ℚ)
    (hm : m (collectInputs raw) = .ok p) :
    ∃ c, (runScript (.ok m) raw true U).chart = some c ∧
      c.labels = ["Predicted Price", "Benchmark Price"] ∧
      c.values = [p, p * U] ∧
      c.values.length = 2 ∧
      c.colors = ["#4CAF50", "#2196F3"] ∧
      c.ylimLo = 0 ∧
      c.ylimHi = max p (p * U) * (12 / 10) := by
  refine ⟨buildChart p (p * U), ?_, rfl, rfl, rfl, rfl, rfl, rfl⟩
  simp only [runScript, hm]
  rfl

/-- Witness for C6 at a mocked prediction of 500000 and draw `U = 1`. -/
theorem c6_chart_structure_witness :
    ∃ c, (runScript (.ok (constModel 500000)) defaultRaw true 1).chart
        = some c ∧
      c.labels = ["Predicted Price", "Benchmark Price"] ∧
      c.values = [(500000 : ℚ), 500000 * 1] ∧
      c.values.length = 2 ∧
      c.colors = ["#4CAF50", "#2196F3"] ∧
      c.ylimLo = 0 ∧
      c.ylimHi = max (500000 : ℚ) (500000 * 1) * (12 / 10) :=
  c6_chart_structure (constModel 500000) defaultRaw 1 500000 rfl

/-- C7: the rendered insight list is a pure function of the Feature
Record and does not depend on the prediction: two successful cycles over
the same widgets, under any two models and any two draws, render the same
insight list, namely `insights` of the collected record. -/
theorem c7_insights_independent_of_prediction (m1 m2 : Model)
    (raw : RawInputs) (U1 U2 p1 p2 : ℚ)
    (h1 : m1 (collectInputs raw) = .ok p1)
    (h2 : m2 (collectInputs raw) = .ok p2) :
    (runScript (.ok m1) raw true U1).insightsShown
      = (runScript (.ok m2) raw true U2).insightsShown ∧
    (runScript (.ok m1) raw true U1).insightsShown
      = some (insights (collectInputs raw)) := by
  simp only [runScript, h1, h2]
  exact ⟨rfl, rfl⟩

/-- Witness for C7: predictions 300000 and 500000 over the default
widgets render the same insight list. -/
theorem c7_insights_independent_of_prediction_witness :
    (runScript (.ok (constModel 300000)) defaultRaw true 1).insightsShown
      = (runScript (.ok (constModel 500000)) defaultRaw true 1).insightsShown :=
  (c7_insights_independent_of_prediction (constModel 300000)
    (constModel 500000) defaultRaw 1 1 300000 500000 rfl rfl).1

/-- C8 counterexample: the claim that the footer is still rendered when a
prediction call fails is false — with a loaded model whose predict call
raises, `st.stop()` on line 91 ends the script before the footer of
lines 174-182, so the footer of that cycle is not rendered. -/
theorem c8_footer_not_rendered_on_failure :
    (runScript (.ok (failModel "boom")) defaultRaw true 1).footerShown
      = false := rfl

/-- C8 (amended): when a prediction call fails, the error is displayed
and `st.stop()` aborts the whole remainder of the script run for that
cycle: not only the chart and insights but also the final message and the
footer/attribution string are not rendered; the failure does not disable
future predict attempts (every element before the stop, the error banner
included, still renders). -/
theorem c8_stop_aborts_remaining_render (m : Model) (raw : RawInputs)
    (U : ℚ) (e : String) (hfail : m (collectInputs raw) = .error e) :
    (runScript (.ok m) raw true U).errorBanner
      = some (predictionErrorBanner e) ∧
    (runScript (.ok m) raw true U).chart = none ∧
    (runScript (.ok m) raw true U).insightsShown = none ∧
    (runScript (.ok m) raw true U).finalMessageShown = false ∧
    (runScript (.ok m) raw true U).footerShown = false := by
  simp only [runScript, hfail]
  exact ⟨rfl, rfl, rfl, rfl, rfl⟩

/-- Witness for the amended C8 at a model that always raises. -/
theorem c8_stop_aborts_remaining_render_witness :
    (runScript (.ok (failModel "boom")) defaultRaw true 1).errorBanner
      = some (predictionErrorBanner "boom") :=
  (c8_stop_aborts_remaining_render (failModel "boom") defaultRaw 1 "boom"
    rfl).1

/-- C9: whatever the user does to the ten widgets, the collected Feature
Record always lies within the declared ranges — each control clamps or
defaults its field before line 88 sees it — and untouched widgets yield
exactly the declared defaults (1500, 3, 2, 1, 2010, 0, 0, 1, 7, 5.0). -/
theorem c9_collected_inputs_in_range (raw : RawInputs) :
    InRange (collectInputs raw) ∧ collectInputs defaultRaw = defaultRecord := by
  constructor
  · obtain ⟨sf, bd, ba, fl, yb, gd, pl, gs, ls, dc⟩ := raw
    refine ⟨?_, ?_, ?_, ?_, ?_, ?_, ?_, ?_, ?_, ?_⟩
    · cases sf <;> simp [collectInputs, numberInputInt]
    · cases bd <;> simp [collectInputs, numberInputInt]
    · cases ba <;> simp [collectInputs, numberInputInt]
    · cases fl <;> simp [collectInputs, numberInputInt]
    · cases yb <;> simp [collectInputs, numberInputInt]
    · rcases gd with - | b
      · exact Or.inl rfl
      · cases b
        · exact Or.inl rfl
        · exact Or.inr rfl
    · rcases pl with - | b
      · exact Or.inl rfl
      · cases b
        · exact Or.inl rfl
        · exact Or.inr rfl
    · cases gs <;> simp [collectInputs, numberInputInt]
    · cases ls <;> simp [collectInputs, sliderInt]
    · rcases dc with - | v
      · constructor <;> norm_num [collectInputs, numberInputRat]
      · refine ⟨le_max_left 0 _, ?_⟩
        simp only [collectInputs, numberInputRat]
        exact max_le (by norm_num) (min_le_left 100 v)
  · rfl

/-- A record at the defaults. -/
def recordA : FeatureRecord := defaultRecord

/-- A record agreeing with `recordA` on the five fields the insight rules
read, and differing from it on each of the other five fields. -/
def recordB : FeatureRecord :=
  { defaultRecord with
      Num_Bedrooms := 10
      Num_Bathrooms := 9
      Num_Floors := 5
      Has_Garden := 1
      Garage_Size := 7 }

/-- C10: the insight list reads only `Location_Score`, `Has_Pool`,
`Year_Built`, `Distance_to_Center` and `Square_Feet`: two Feature Records
agreeing on those five fields derive identical insight lists, however the
other five fields differ. -/
theorem c10_insights_read_five_fields (r1 r2 : FeatureRecord)
    (hls : r1.Location_Score = r2.Location_Score)
    (hhp : r1.Has_Pool = r2.Has_Pool)
    (hyb : r1.Year_Built = r2.Year_Built)
    (hdc : r1.Distance_to_Center = r2.Distance_to_Center)
    (hsf : r1.Square_Feet = r2.Square_Feet) :
    insights r1 = insights r2 := by
  simp only [insights, hls, hhp, hyb, hdc, hsf]

/-- Witness for C10: `recordA` and `recordB` differ in all five unused
fields yet derive the same insight list. -/
theorem c10_insights_read_five_fields_witness :
    insights recordA = insights recordB ∧ recordA ≠ recordB :=
  ⟨c10_insights_read_five_fields recordA recordB rfl rfl rfl rfl rfl,
    by decide⟩
